import Mathlib

/-!
Verification development for the RAR ITP checker fetch pipeline
(custom_components/rar_itp_checker/sensor.py).

Python strings are embedded as `List Char` (`Str`), Python dicts keyed by
strings as insertion-ordered association lists (`Dict`, updates in place,
new keys appended — matching CPython dict semantics). Network effects are
embedded as explicit environment records describing the responses one
fetch attempt observes; fallible Python code becomes `Except`.

Python's `str.lower`/`str.upper` are full Unicode; the embedding models
the ASCII range plus the Romanian diacritics that actually occur in the
marker strings, which coincides with CPython on every input used here.
Python's regex class `\d` matches Unicode decimal digits; the embedding
uses ASCII `Char.isDigit`, which coincides on ASCII text.
-/

/-- Python strings, embedded as lists of characters. -/
abbrev Str := List Char

/-- Python dicts with string keys and values: insertion-ordered association
lists with unique keys. -/
abbrev Dict := List (Str × Str)

/-- Lookup in a dict (CPython `d[k]` / `d.get(k)`). -/
def dlookup (k : Str) : Dict → Option Str
  | [] => none
  | (k', v) :: rest => if k' = k then some v else dlookup k rest

/-- Key membership (CPython `k in d`). -/
def dmem (k : Str) (d : Dict) : Bool :=
  (dlookup k d).isSome

/-- Assignment `d[k] = v`: updates the existing entry in place, else appends
a new entry — CPython dict insertion-order semantics. -/
def dinsert (k v : Str) : Dict → Dict
  | [] => [(k, v)]
  | (k', v') :: rest =>
      if k' = k then (k', v) :: rest else (k', v') :: dinsert k v rest

theorem dlookup_dinsert (k n v : Str) (d : Dict) :
    dlookup n (dinsert k v d) = if k = n then some v else dlookup n d := by
  induction d with
  | nil => simp [dinsert, dlookup]
  | cons hd tl ih =>
      obtain ⟨k', v'⟩ := hd
      by_cases hk : k' = k
      · subst hk
        by_cases hn : k' = n
        · subst hn; simp [dinsert, dlookup]
        · simp [dinsert, dlookup, hn]
      · by_cases hn : k' = n
        · subst hn
          have : ¬ k = k' := fun h => hk h.symm
          simp [dinsert, dlookup, hk, this]
        · simp [dinsert, dlookup, hk, hn, ih]

theorem dmem_dinsert (k n v : Str) (d : Dict) :
    dmem n (dinsert k v d) = if k = n then true else dmem n d := by
  simp only [dmem, dlookup_dinsert]
  by_cases h : k = n <;> simp [h]

/-- Model of Python `str.lower` restricted to ASCII plus the Romanian
diacritics appearing in the portal's marker strings. -/
def pyLowerChar (c : Char) : Char :=
  if c = 'Ă' then 'ă'
  else if c = 'Â' then 'â'
  else if c = 'Î' then 'î'
  else if c = 'Ș' then 'ș'
  else if c = 'Ț' then 'ț'
  else if c = 'Ş' then 'ş'
  else if c = 'Ţ' then 'ţ'
  else c.toLower

/-- Model of Python `str.lower` (see `pyLowerChar`). -/
def pyLower (s : Str) : Str := s.map pyLowerChar

/-- Model of Python `str.upper` on ASCII (VINs are alphanumeric ASCII). -/
def pyUpper (s : Str) : Str := s.map Char.toUpper

/-- Model of Python `str.strip()`: removes leading and trailing whitespace. -/
def pyStrip (s : Str) : Str :=
  ((s.dropWhile Char.isWhitespace).reverse.dropWhile Char.isWhitespace).reverse

/-- Model of Python `str.strip(".")`: removes leading and trailing dots. -/
def stripDots (s : Str) : Str :=
  ((s.dropWhile (fun c => c = '.')).reverse.dropWhile (fun c => c = '.')).reverse

/-- Model of Python `s.split(sep)` for a single-character separator. -/
def splitOnChar (sep : Char) : Str → List Str
  | [] => [[]]
  | c :: rest =>
      if c = sep then [] :: splitOnChar sep rest
      else
        match splitOnChar sep rest with
        | h :: t => (c :: h) :: t
        | [] => [[c]]

/-- Model of Python `s.split()[0]`: the first maximal run of non-whitespace
characters, or `none` when the string is all whitespace (Python raises
IndexError there). -/
def firstWsToken (s : Str) : Option Str :=
  let t := s.dropWhile Char.isWhitespace
  if t = [] then none else some (t.takeWhile (fun c => ¬ c.isWhitespace))

/-- Model of Python `s.zfill(width)`: left-pads with zeros to `width`,
keeping a leading sign character in front of the padding. -/
def zfill (width : Nat) (s : Str) : Str :=
  if width ≤ s.length then s
  else
    match s with
    | [] => List.replicate width '0'
    | c :: rest =>
        if c = '+' ∨ c = '-' then
          c :: (List.replicate (width - s.length) '0' ++ rest)
        else
          List.replicate (width - s.length) '0' ++ s

/-- Model of Python `s.rsplit(sep, 1)[0]` for a single-character separator:
everything before the last occurrence of `sep`, or all of `s` when `sep`
does not occur. -/
def rsplitHead (sep : Char) (s : Str) : Str :=
  if s.contains sep then
    ((s.reverse.dropWhile (fun c => c ≠ sep)).drop 1).reverse
  else s

/-- Suffix of `s` after the first occurrence of `marker`; `none` when
`marker` does not occur. For a nonempty marker, `afterFirst marker s`
is `some` of Python `s.split(marker, 1)[1]` exactly when `marker in s`. -/
def afterFirst (marker : Str) : Str → Option Str
  | [] => none
  | c :: rest =>
      if marker.isPrefixOf (c :: rest) then some ((c :: rest).drop marker.length)
      else afterFirst marker rest

/-- Model of Python substring membership `marker in s`. -/
def occursIn (marker : Str) : Str → Bool
  | [] => marker.isPrefixOf []
  | c :: rest => marker.isPrefixOf (c :: rest) || occursIn marker rest

/-- Model of the Python regex check `re.fullmatch(r"\d{n}", s)`:
`s` consists of exactly `n` decimal digits. -/
def fullmatchDigits (n : Nat) (s : Str) : Bool :=
  s.length = n && s.all Char.isDigit

/-! ## OCR Client: `solve_captcha_with_local_api` (sensor.py lines 70-141) -/

/-- One HTTP reply from the local Tesseract OCR endpoint.
`rawText` is the response body as text (used for non-200 diagnostics);
`jsonText` is `some t` when the body is JSON and `t` is the stringified
`"text"` field (`str(data.get("text", ""))`, missing field giving the
empty string), and `none` when the body is not decodable as JSON. -/
structure OcrReply where
  status : Nat
  rawText : Str
  jsonText : Option Str
deriving DecidableEq

/-- What the OCR endpoint call observes: a timeout, or a reply. -/
inductive OcrResponse where
  | timeout : OcrResponse
  | reply (r : OcrReply) : OcrResponse
deriving DecidableEq

/-- The failure causes of `solve_captcha_with_local_api`. Every one of them
is raised as `OCRAPIError` in the source (the enclosing handler re-wraps any
exception, its own included, into `OCRAPIError`), so a single error type with
a cause per raise site is the faithful embedding. -/
inductive OcrFailure where
  | httpError (status : Nat) (bodyHead : Str) : OcrFailure
  | emptyText : OcrFailure
  | invalidFormat (raw : Str) (digits : Str) : OcrFailure
  | timedOut : OcrFailure
  | processingFailed : OcrFailure
deriving DecidableEq

/-- Embedding of `solve_captcha_with_local_api` (sensor.py lines 70-141),
parameterised by the endpoint's observed response. The URL construction and
multipart upload are transport, with no effect on the returned value.
`.processingFailed` is the enclosing generic handler, reached when the 200
body is not JSON. -/
def solve_captcha_with_local_api (resp : OcrResponse) : Except OcrFailure Str :=
  match resp with
  | .timeout => .error .timedOut
  | .reply r =>
      if r.status ≠ 200 then .error (.httpError r.status (r.rawText.take 200))
      else
        match r.jsonText with
        | none => .error .processingFailed
        | some t =>
            let raw_text := pyStrip t
            if raw_text = [] then .error .emptyText
            else
              let digits_only := raw_text.filter Char.isDigit
              if ¬ (digits_only.all Char.isDigit ∧
                    1 ≤ digits_only.length ∧ digits_only.length ≤ 6) then
                .error (.invalidFormat raw_text digits_only)
              else
                if digits_only.length ≥ 4 then .ok (digits_only.take 4)
                else .ok digits_only

/-- True when the OCR call failed (with `OCRAPIError` in the source). -/
def isOcrError (r : Except OcrFailure Str) : Bool :=
  match r with
  | .error _ => true
  | .ok _ => false

/-! ## Form Extractor: `_build_form_data_from_page` (sensor.py lines 144-215) -/

/-- One `<input>` element of the located form: optional `name` and `value`
attributes (`inp.get("name")`, `inp.get("value", "")`). -/
structure FormInput where
  name : Option Str
  value : Option Str
deriving DecidableEq

/-- The located `<form>` element: its optional `action` attribute and its
`<input>` children in document order. -/
structure FormEl where
  action : Option Str
  inputs : List FormInput
deriving DecidableEq

/-- `BASE_URL` from const.py. -/
def BASE_URL : Str := "https://prog.rarom.ro/rarpol/rarpol.asp".toList

/-- The portal host used for root-relative actions (sensor.py line 172). -/
def progHost : Str := "https://prog.rarom.ro".toList

/-- Fragment stripping (sensor.py lines 165-168): when the action contains
`#`, keep only the part before the first `#` (`action.split("#", 1)[0]`). -/
def actionClean (action : Str) : Str :=
  if occursIn "#".toList action then action.takeWhile (fun c => c ≠ '#')
  else action

/-- Embedding of the POST-URL resolution (sensor.py lines 160-177), applied
to `form_el.get("action") or ""` (a missing or empty action arrives as `[]`). -/
def resolvePostUrl (action : Str) : Str :=
  if "http".toList.isPrefixOf action then action
  else
    if actionClean action ≠ [] then
      if "/".toList.isPrefixOf (actionClean action) then
        progHost ++ actionClean action
      else rsplitHead '/' BASE_URL ++ "/".toList ++ actionClean action
    else BASE_URL

/-- Field-extraction loop (sensor.py lines 179-187): collect `name → value`
for every named input, skipping inputs whose name is missing or empty
(falsy), a missing value defaulting to the empty string. -/
def extractFormData (inputs : List FormInput) : Dict :=
  inputs.foldl
    (fun d i =>
      match i.name with
      | none => d
      | some n => if n = [] then d else dinsert n (i.value.getD []) d)
    []

def nrIdName : Str := "nr_id".toList

def verifCodName : Str := "verif_cod".toList

def antirobotName : Str := "antirobot".toList

def trimiteName : Str := "trimite".toList

/-- Embedding of `_build_form_data_from_page` (sensor.py lines 144-215) from
the located form element onward (form location itself is handled by the
caller model, which fails with `UpdateFailed` when no form exists). -/
def build_form_data_from_page (form : FormEl) (vin captcha_code : Str) :
    Str × Dict :=
  let post_url := resolvePostUrl (form.action.getD [])
  let fd0 := extractFormData form.inputs
  -- Override VIN field (both branches of the source's if are identical)
  let fd1 := dinsert nrIdName (pyUpper vin) fd0
  -- Override CAPTCHA field: verif_cod, else antirobot, else insert verif_cod
  let fd2 :=
    if dmem verifCodName fd1 then dinsert verifCodName captcha_code fd1
    else if dmem antirobotName fd1 then dinsert antirobotName captcha_code fd1
    else dinsert verifCodName captcha_code fd1
  -- Submit button: an existing empty trimite field is filled with a label
  let fd3 :=
    if dlookup trimiteName fd2 = some [] then
      dinsert trimiteName "Caută".toList fd2
    else fd2
  (post_url, fd3)

/-- The name the CAPTCHA code is routed to, as a function of the extracted
form data: `verif_cod` when present, else `antirobot` when present, else a
fresh `verif_cod` entry. -/
def captchaTargetName (extracted : Dict) : Str :=
  if dmem verifCodName extracted then verifCodName
  else if dmem antirobotName extracted then antirobotName
  else verifCodName

/-! ## Result Parser (sensor.py lines 349-396) -/

/-- The no-record marker phrase (sensor.py line 363). -/
def noRecordMarker : Str := "nu a fost găsită nicio înregistrare".toList

/-- The new-format validity marker phrase (sensor.py line 367). -/
def validUntilMarker : Str := "valabilă până la".toList

/-- The legacy-format marker phrase (sensor.py line 379). -/
def legacyMarker : Str := "data expirării".toList

/-- `MONTH_MAP` (sensor.py lines 34-47): Romanian month abbreviation to
two-digit month number. -/
def MONTH_MAP : Dict :=
  [ ("ian".toList, "01".toList)
  , ("feb".toList, "02".toList)
  , ("mar".toList, "03".toList)
  , ("apr".toList, "04".toList)
  , ("mai".toList, "05".toList)
  , ("iun".toList, "06".toList)
  , ("iul".toList, "07".toList)
  , ("aug".toList, "08".toList)
  , ("sept".toList, "09".toList)
  , ("oct".toList, "10".toList)
  , ("nov".toList, "11".toList)
  , ("dec".toList, "12".toList) ]

/-- New-format date extraction (sensor.py lines 368-374) applied to the
fragment following the marker: first whitespace token, stripped of
surrounding whitespace and dots, split on `-` into exactly day, month
abbreviation and year (any other arity raises and is caught); `none` is
the caught-exception path leaving the date "Unknown". -/
def parseNewDate (fragment : Str) : Option Str :=
  match firstWsToken fragment with
  | none => none
  | some tok =>
      let raw_date := stripDots (pyStrip tok)
      match splitOnChar '-' raw_date with
      | [day, month, year] =>
          some (year ++ "-".toList ++ (dlookup month MONTH_MAP).getD "01".toList
                ++ "-".toList ++ zfill 2 day)
      | _ => none

/-- Embedding of the result parsing (sensor.py lines 357-390), from the
extracted content text. `legacyNode` embeds the BeautifulSoup lookup of the
legacy branch — the text of the node following the "Data expirării" node —
which lives in the external HTML library; `none` covers both a missing node
and a navigation exception. The new-format branch is written with
`afterFirst`, which for this nonempty marker is exactly the source's
guarded `lower.split("valabilă până la", 1)[1]`. -/
def parse_results (content_text : Str) (legacyNode : Option Str) : Str × Str :=
  let lower := pyLower content_text
  if occursIn noRecordMarker lower then
    ("Not Found".toList, "Unknown".toList)
  else
    let expiration_date :=
      match afterFirst validUntilMarker lower with
      | some fragment => (parseNewDate fragment).getD "Unknown".toList
      | none =>
          if occursIn legacyMarker lower then
            match legacyNode with
            | some raw =>
                match splitOnChar '.' raw with
                | [day, month, year] =>
                    year ++ "-".toList ++ month ++ "-".toList ++ day
                | _ => "Unknown".toList
            | none => "Unknown".toList
          else "Unknown".toList
    ("Valid".toList, expiration_date)

/-! ## Fetch Orchestrator: `fetch_itp` (sensor.py lines 218-400) -/

/-- The server-side CAPTCHA rejection phrase (sensor.py line 326). -/
def rejectionPhrase : Str :=
  "codul de verificare a fost copiat incorect".toList

/-- CAPTCHA image URL resolution (sensor.py lines 251-257). -/
def resolveCaptchaUrl (src : Str) : Str :=
  if "http".toList.isPrefixOf src then src
  else "https://prog.rarom.ro/rarpol/".toList ++ src.dropWhile (fun c => c = '/')

/-- Everything one attempt observes from the network: the landing-page
response (status and, at the parsed level, the located form and the CAPTCHA
image src), the CAPTCHA image download status, the OCR endpoint response,
and the form-submission response. `pageForm` is the form located by name
"frm" with fallback to the first form; `captchaSrc` is
`soup.find("img", id="imgVerf")`'s src attribute (absent image or absent
src both arrive as `none`, an empty src as `some []`). `resultDivText` is
the text of `div#rezbgcolor` when present; `legacyNodeText` as in
`parse_results`. -/
structure AttemptEnv where
  pageStatus : Nat
  pageForm : Option FormEl
  captchaSrc : Option Str
  capStatus : Nat
  ocr : OcrResponse
  postStatus : Nat
  postBody : Str
  resultDivText : Option Str
  legacyNodeText : Option Str
deriving DecidableEq

/-- The successful attempt's submission response page, handed to the result
parser. -/
structure ResultPage where
  body : Str
  divText : Option Str
  legacyNodeText : Option Str
deriving DecidableEq

/-- The per-attempt `UpdateFailed` causes (one constructor per raise site
inside the attempt loop, sensor.py lines 234-339), carrying what the
source's message interpolates. -/
inductive AttemptFailure where
  | initialHTTP (status : Nat) : AttemptFailure
  | captchaImgNotFound : AttemptFailure
  | captchaDownloadHTTP (status : Nat) : AttemptFailure
  | ocrFailed (e : OcrFailure) : AttemptFailure
  | emptyCaptchaResult : AttemptFailure
  | invalidCaptchaClean (clean : Str) : AttemptFailure
  | formNotFound : AttemptFailure
  | postHTTP (status : Nat) : AttemptFailure
  | captchaRejected : AttemptFailure
deriving DecidableEq

/-- Terminal failure shape of `fetch_itp`: the top-level handler
(sensor.py lines 398-400) wraps the loop's final `UpdateFailed`
("Failed after 3 attempts: ...", line 344) into
"ITP check failed: ...". -/
inductive FetchFailure where
  | itpCheckFailed (cause : FetchFailure) : FetchFailure
  | failedAfter3 (lastCause : AttemptFailure) : FetchFailure
deriving DecidableEq

/-- Observable network actions of a fetch run: the start of an attempt
(the landing-page GET) and a form submission POST carrying the form data
and the cleaned CAPTCHA code it was built from. -/
inductive Event where
  | attemptStarted : Event
  | submitted (url : Str) (formData : Dict) (code : Str) : Event
deriving DecidableEq

/-- One iteration of the attempt loop (sensor.py lines 235-339): load page,
locate CAPTCHA image, download it, OCR it, clean and validate the digits,
build the form, POST it, and inspect a 200 response for the server-side
rejection phrase. Returns the attempt's outcome together with the network
events it performed. The debug image save (line 268) is an external side
effect with no influence on the result. -/
def runAttempt (vin : Str) (env : AttemptEnv) :
    Except AttemptFailure ResultPage × List Event :=
  if env.pageStatus ≠ 200 then
    (.error (.initialHTTP env.pageStatus), [.attemptStarted])
  else
    match env.captchaSrc with
    | none => (.error .captchaImgNotFound, [.attemptStarted])
    | some src =>
        if src = [] then (.error .captchaImgNotFound, [.attemptStarted])
        else
          if env.capStatus ≠ 200 then
            (.error (.captchaDownloadHTTP env.capStatus), [.attemptStarted])
          else
            match solve_captcha_with_local_api env.ocr with
            | .error e => (.error (.ocrFailed e), [.attemptStarted])
            | .ok captcha_text =>
                if captcha_text = [] then
                  (.error .emptyCaptchaResult, [.attemptStarted])
                else
                  let clean_captcha := captcha_text.filter Char.isDigit
                  if ¬ fullmatchDigits 4 clean_captcha then
                    (.error (.invalidCaptchaClean clean_captcha),
                     [.attemptStarted])
                  else
                    match env.pageForm with
                    | none => (.error .formNotFound, [.attemptStarted])
                    | some form =>
                        let pf := build_form_data_from_page form vin clean_captcha
                        let events :=
                          [Event.attemptStarted,
                           Event.submitted pf.1 pf.2 clean_captcha]
                        if env.postStatus ≠ 200 then
                          (.error (.postHTTP env.postStatus), events)
                        else if occursIn rejectionPhrase (pyLower env.postBody) then
                          (.error .captchaRejected, events)
                        else
                          (.ok ⟨env.postBody, env.resultDivText,
                                env.legacyNodeText⟩,
                           events)

/-- The final output record (sensor.py lines 391-396); `last_checked` is a
wall-clock timestamp produced outside the embedded logic and is omitted. -/
structure ItpRecord where
  vin : Str
  status : Str
  expiration_date : Str
deriving DecidableEq

/-- Content-text selection (sensor.py lines 350-356): the text of
`div#rezbgcolor` when the div exists, else the raw response body. -/
def contentTextOf (rp : ResultPage) : Str :=
  match rp.divText with
  | some t => t
  | none => rp.body

/-- Assemble the returned record from the successful attempt's page. -/
def mkRecord (vin : Str) (rp : ResultPage) : ItpRecord :=
  let pr := parse_results (contentTextOf rp) rp.legacyNodeText
  { vin := vin, status := pr.1, expiration_date := pr.2 }

/-- Embedding of `fetch_itp` (sensor.py lines 218-400): the unrolled
`for attempt in range(1, 4)` loop. A successful attempt breaks out and its
response page is parsed; a failed attempt retries (the 2-second sleep is
timing, not logic), and failure of the third attempt raises
`UpdateFailed("Failed after 3 attempts: ...")`, re-wrapped by the top-level
handler into `UpdateFailed("ITP check failed: ...")`. The three `AttemptEnv`
arguments are what attempts 1, 2 and 3 would observe; the event list
records the network actions actually performed. -/
def fetch_itp (vin : Str) (e1 e2 e3 : AttemptEnv) :
    Except FetchFailure ItpRecord × List Event :=
  match runAttempt vin e1 with
  | (.ok rp, t1) => (.ok (mkRecord vin rp), t1)
  | (.error _, t1) =>
      match runAttempt vin e2 with
      | (.ok rp, t2) => (.ok (mkRecord vin rp), t1 ++ t2)
      | (.error _, t2) =>
          match runAttempt vin e3 with
          | (.ok rp, t3) => (.ok (mkRecord vin rp), t1 ++ t2 ++ t3)
          | (.error c, t3) =>
              (.error (.itpCheckFailed (.failedAfter3 c)), t1 ++ t2 ++ t3)

/-- Number of attempts a fetch run actually started. -/
def countStarted (evs : List Event) : Nat :=
  evs.countP (fun e =>
    match e with
    | .attemptStarted => true
    | _ => false)

theorem all_filter_self (p : Char → Bool) (l : Str) :
    (l.filter p).all p = true := by
  simp only [List.all_eq_true]
  intro a ha
  exact (List.mem_filter.mp ha).2

/-- C3 counterexample: an OCR response whose text field strips to seven
digits is rejected by the 1-6 digit format check and fails, instead of
returning the first 4 digits as the claim states. -/
theorem C3_counterexample_seven_digits :
    4 ≤ ((pyStrip "1234567".toList).filter Char.isDigit).length ∧
    solve_captcha_with_local_api
        (.reply ⟨200, [], some "1234567".toList⟩)
      = .error (.invalidFormat "1234567".toList "1234567".toList) :=
  ⟨by decide, rfl⟩

/-- C3 (amended): for every OCR endpoint response whose JSON text field
strips to 4 to 6 digits, the OCR Client returns exactly the first 4 of
those digits and does not fail; 7 or more digits instead fail the
1-6 digit format check. -/
theorem C3_first_four_of_four_to_six (t rawBody : Str)
    (h4 : 4 ≤ ((pyStrip t).filter Char.isDigit).length)
    (h6 : ((pyStrip t).filter Char.isDigit).length ≤ 6) :
    solve_captcha_with_local_api (.reply ⟨200, rawBody, some t⟩)
      = .ok (((pyStrip t).filter Char.isDigit).take 4) := by
  have hne : ¬ (pyStrip t = []) := by
    intro h
    rw [h] at h4
    simp at h4
  have hall : ((pyStrip t).filter Char.isDigit).all Char.isDigit = true :=
    all_filter_self _ _
  simp only [solve_captcha_with_local_api]
  rw [if_neg (by simp)]
  rw [if_neg hne]
  rw [if_neg (by push_neg; exact ⟨hall, by omega, h6⟩)]
  rw [if_pos h4]

/-- C3 witness: concrete instance of the amended claim. -/
theorem C3_first_four_witness :
    solve_captcha_with_local_api (.reply ⟨200, [], some " 12a34 ".toList⟩)
      = .ok (((pyStrip " 12a34 ".toList).filter Char.isDigit).take 4) :=
  C3_first_four_of_four_to_six " 12a34 ".toList [] (by decide) (by decide)

/-- C9: a timeout, a non-200 reply, an undecodable body, a text field
stripping to the empty string, and a text field with no digits at all each
make the OCR Client fail with the OCR error type; the model returns every
failure through the single `OcrFailure` type, mirroring the source where
the enclosing handler wraps every exception into `OCRAPIError` so no raw
exception reaches the caller. -/
theorem C9_failures_all_wrapped :
    isOcrError (solve_captcha_with_local_api .timeout) = true
  ∧ (∀ r : OcrReply, r.status ≠ 200 →
      isOcrError (solve_captcha_with_local_api (.reply r)) = true)
  ∧ (∀ r : OcrReply, r.jsonText = none → r.status = 200 →
      isOcrError (solve_captcha_with_local_api (.reply r)) = true)
  ∧ (∀ (r : OcrReply) (t : Str), r.jsonText = some t → pyStrip t = [] →
      isOcrError (solve_captcha_with_local_api (.reply r)) = true)
  ∧ (∀ (r : OcrReply) (t : Str), r.jsonText = some t →
      (pyStrip t).filter Char.isDigit = [] →
      isOcrError (solve_captcha_with_local_api (.reply r)) = true) := by
  refine ⟨rfl, ?_, ?_, ?_, ?_⟩
  · intro r h
    simp only [solve_captcha_with_local_api, if_pos h, isOcrError]
  · rintro ⟨st, raw, jt⟩ hj hst
    subst hst
    simp only at hj
    subst hj
    simp [solve_captcha_with_local_api, isOcrError]
  · rintro ⟨st, raw, jt⟩ t hj hstrip
    simp only at hj
    subst hj
    by_cases hst : st = 200
    · subst hst
      simp [solve_captcha_with_local_api, hstrip, isOcrError]
    · simp [solve_captcha_with_local_api, hst, isOcrError]
  · rintro ⟨st, raw, jt⟩ t hj hflt
    simp only at hj
    subst hj
    by_cases hst : st = 200
    · subst hst
      by_cases hstrip : pyStrip t = []
      · simp [solve_captcha_with_local_api, hstrip, isOcrError]
      · simp only [solve_captcha_with_local_api, isOcrError]
        rw [if_neg (by simp), if_neg hstrip]
        rw [if_pos (by rw [hflt]; simp)]
    · simp [solve_captcha_with_local_api, hst, isOcrError]

/-- C9 witness: the four hypothesis-bearing conjuncts at concrete replies. -/
theorem C9_witness :
    isOcrError (solve_captcha_with_local_api (.reply ⟨500, "boom".toList, none⟩)) = true
  ∧ isOcrError (solve_captcha_with_local_api (.reply ⟨200, [], none⟩)) = true
  ∧ isOcrError (solve_captcha_with_local_api (.reply ⟨200, [], some "  ".toList⟩)) = true
  ∧ isOcrError (solve_captcha_with_local_api (.reply ⟨200, [], some "abc".toList⟩)) = true :=
  ⟨C9_failures_all_wrapped.2.1 ⟨500, "boom".toList, none⟩ (by decide),
   C9_failures_all_wrapped.2.2.1 ⟨200, [], none⟩ rfl rfl,
   C9_failures_all_wrapped.2.2.2.1 ⟨200, [], some "  ".toList⟩ "  ".toList rfl (by decide),
   C9_failures_all_wrapped.2.2.2.2 ⟨200, [], some "abc".toList⟩ "abc".toList rfl (by decide)⟩

/-- C10: whenever the OCR Client returns successfully, the returned value
is a non-empty string of at most 4 decimal digits — never 5 or 6, even
though the 1-6 digit format check would admit them before truncation. -/
theorem C10_success_shape (resp : OcrResponse) (res : Str)
    (h : solve_captcha_with_local_api resp = .ok res) :
    res ≠ [] ∧ res.length ≤ 4 ∧ res.all Char.isDigit = true := by
  cases resp with
  | timeout => simp [solve_captcha_with_local_api] at h
  | reply r =>
      obtain ⟨st, raw, jt⟩ := r
      by_cases hst : st = 200
      · subst hst
        cases jt with
        | none => simp [solve_captcha_with_local_api] at h
        | some t =>
            simp only [solve_captcha_with_local_api] at h
            rw [if_neg (by simp)] at h
            by_cases hstrip : pyStrip t = []
            · rw [if_pos hstrip] at h
              simp at h
            · rw [if_neg hstrip] at h
              by_cases hfmt : ((pyStrip t).filter Char.isDigit).all Char.isDigit = true ∧
                  1 ≤ ((pyStrip t).filter Char.isDigit).length ∧
                  ((pyStrip t).filter Char.isDigit).length ≤ 6
              · rw [if_neg (not_not_intro hfmt)] at h
                by_cases hge : 4 ≤ ((pyStrip t).filter Char.isDigit).length
                · rw [if_pos hge] at h
                  simp only [Except.ok.injEq] at h
                  subst h
                  have hlen : (((pyStrip t).filter Char.isDigit).take 4).length = 4 := by
                    simp [List.length_take]
                    omega
                  refine ⟨?_, ?_, ?_⟩
                  · intro hemp
                    rw [hemp] at hlen
                    simp at hlen
                  · omega
                  · simp only [List.all_eq_true]
                    intro a ha
                    have : a ∈ (pyStrip t).filter Char.isDigit :=
                      List.mem_of_mem_take ha
                    exact (List.mem_filter.mp this).2
                · rw [if_neg hge] at h
                  simp only [Except.ok.injEq] at h
                  subst h
                  refine ⟨?_, by omega, all_filter_self _ _⟩
                  intro hemp
                  rw [hemp] at hfmt
                  simp at hfmt
              · rw [if_pos hfmt] at h
                simp at h
      · simp [solve_captcha_with_local_api, hst] at h

/-- C10 witness: a five-digit OCR text yields the first four digits,
which satisfy the shape bound. -/
theorem C10_success_shape_witness :
    "1234".toList ≠ [] ∧ ("1234".toList).length ≤ 4 ∧
    ("1234".toList).all Char.isDigit = true :=
  C10_success_shape (.reply ⟨200, [], some "12345".toList⟩) "1234".toList rfl

theorem actionClean_eq (a : Str) :
    actionClean a = a.takeWhile (fun c => c ≠ '#') := by
  unfold actionClean
  by_cases h : occursIn "#".toList a
  · rw [if_pos h]
  · rw [if_neg h]
    symm
    rw [List.takeWhile_eq_self_iff]
    intro x hx
    simp only [decide_eq_true_eq]
    intro hx2
    apply h
    subst hx2
    clear h
    induction a with
    | nil => cases hx
    | cons c rest ih =>
        unfold occursIn
        rcases List.mem_cons.mp hx with h1 | h2
        · subst h1
          have : "#".toList.isPrefixOf ('#' :: rest) = true := by
            simp [List.isPrefixOf]
          rw [this]
          rfl
        · rw [ih h2]
          simp

theorem resolvePostUrl_cases (a : Str) :
    resolvePostUrl a =
      if "http".toList.isPrefixOf a then a
      else if a.takeWhile (fun c => c ≠ '#') = [] then BASE_URL
      else if "/".toList.isPrefixOf (a.takeWhile (fun c => c ≠ '#')) then
        progHost ++ a.takeWhile (fun c => c ≠ '#')
      else rsplitHead '/' BASE_URL ++ "/".toList ++ a.takeWhile (fun c => c ≠ '#') := by
  simp only [resolvePostUrl, actionClean_eq]
  by_cases h1 : "http".toList.isPrefixOf a
  · rw [if_pos h1, if_pos h1]
  · rw [if_neg h1, if_neg h1]
    by_cases h2 : a.takeWhile (fun c => c ≠ '#') = []
    · rw [if_neg (not_not_intro h2), if_pos h2]
    · rw [if_pos h2, if_neg h2]

/-- C5: the computed absolute submission URL follows the claimed rules. -/
theorem C5_post_url_resolution :
    resolvePostUrl [] = BASE_URL
  ∧ rsplitHead '/' BASE_URL = "https://prog.rarom.ro/rarpol".toList
  ∧ (∀ a : Str, "http".toList.isPrefixOf a = true → resolvePostUrl a = a)
  ∧ (∀ a : Str, "http".toList.isPrefixOf a = false →
      a.takeWhile (fun c => c ≠ '#') = [] → resolvePostUrl a = BASE_URL)
  ∧ (∀ a : Str, "http".toList.isPrefixOf a = false →
      a.takeWhile (fun c => c ≠ '#') ≠ [] →
      "/".toList.isPrefixOf (a.takeWhile (fun c => c ≠ '#')) = true →
      resolvePostUrl a = progHost ++ a.takeWhile (fun c => c ≠ '#'))
  ∧ (∀ a : Str, "http".toList.isPrefixOf a = false →
      a.takeWhile (fun c => c ≠ '#') ≠ [] →
      "/".toList.isPrefixOf (a.takeWhile (fun c => c ≠ '#')) = false →
      resolvePostUrl a
        = rsplitHead '/' BASE_URL ++ "/".toList ++ a.takeWhile (fun c => c ≠ '#')) := by
  refine ⟨by decide, by decide, ?_, ?_, ?_, ?_⟩
  · intro a h
    rw [resolvePostUrl_cases, if_pos h]
  · intro a h1 h2
    rw [resolvePostUrl_cases, if_neg (by rw [h1]; exact Bool.false_ne_true),
        if_pos h2]
  · intro a h1 h2 h3
    rw [resolvePostUrl_cases, if_neg (by rw [h1]; exact Bool.false_ne_true),
        if_neg h2, if_pos h3]
  · intro a h1 h2 h3
    rw [resolvePostUrl_cases, if_neg (by rw [h1]; exact Bool.false_ne_true),
        if_neg h2, if_neg (by rw [h3]; exact Bool.false_ne_true)]

/-- C5 witness: the hypothesis-bearing conjuncts at concrete actions. -/
theorem C5_post_url_resolution_witness :
    resolvePostUrl "http://example.com/x".toList = "http://example.com/x".toList
  ∧ resolvePostUrl "#top".toList = BASE_URL
  ∧ resolvePostUrl "/cgi/q.asp".toList
      = progHost ++ ("/cgi/q.asp".toList).takeWhile (fun c => c ≠ '#')
  ∧ resolvePostUrl "q.asp#f".toList
      = rsplitHead '/' BASE_URL ++ "/".toList
        ++ ("q.asp#f".toList).takeWhile (fun c => c ≠ '#') :=
  ⟨C5_post_url_resolution.2.2.1 "http://example.com/x".toList (by decide),
   C5_post_url_resolution.2.2.2.1 "#top".toList (by decide) (by decide),
   C5_post_url_resolution.2.2.2.2.1 "/cgi/q.asp".toList (by decide) (by decide)
     (by decide),
   C5_post_url_resolution.2.2.2.2.2 "q.asp#f".toList (by decide) (by decide)
     (by decide)⟩

theorem build_form_data_eq (form : FormEl) (vin code : Str) :
    (build_form_data_from_page form vin code).2 =
      (if dlookup trimiteName
            (dinsert (captchaTargetName (extractFormData form.inputs)) code
              (dinsert nrIdName (pyUpper vin) (extractFormData form.inputs)))
          = some [] then
         dinsert trimiteName "Caută".toList
           (dinsert (captchaTargetName (extractFormData form.inputs)) code
             (dinsert nrIdName (pyUpper vin) (extractFormData form.inputs)))
       else
         dinsert (captchaTargetName (extractFormData form.inputs)) code
           (dinsert nrIdName (pyUpper vin) (extractFormData form.inputs))) := by
  simp only [build_form_data_from_page, captchaTargetName]
  have hv : dmem verifCodName
      (dinsert nrIdName (pyUpper vin) (extractFormData form.inputs))
      = dmem verifCodName (extractFormData form.inputs) := by
    rw [dmem_dinsert, if_neg (by decide)]
  have ha : dmem antirobotName
      (dinsert nrIdName (pyUpper vin) (extractFormData form.inputs))
      = dmem antirobotName (extractFormData form.inputs) := by
    rw [dmem_dinsert, if_neg (by decide)]
  rw [hv, ha]
  by_cases h1 : dmem verifCodName (extractFormData form.inputs)
  · rw [if_pos h1, if_pos h1]
  · rw [if_neg h1, if_neg h1]
    by_cases h2 : dmem antirobotName (extractFormData form.inputs)
    · rw [if_pos h2, if_pos h2]
    · rw [if_neg h2, if_neg h2]

theorem captchaTargetName_cases (ex : Dict) :
    captchaTargetName ex = verifCodName ∨ captchaTargetName ex = antirobotName := by
  unfold captchaTargetName
  by_cases h1 : dmem verifCodName ex
  · rw [if_pos h1]
    left
    rfl
  · rw [if_neg h1]
    by_cases h2 : dmem antirobotName ex
    · rw [if_pos h2]
      right
      rfl
    · rw [if_neg h2]
      left
      rfl

theorem build_lookup_skip_trimite (form : FormEl) (vin code n : Str)
    (hn : trimiteName ≠ n) :
    dlookup n (build_form_data_from_page form vin code).2 =
      dlookup n (dinsert (captchaTargetName (extractFormData form.inputs)) code
        (dinsert nrIdName (pyUpper vin) (extractFormData form.inputs))) := by
  rw [build_form_data_eq]
  by_cases h : dlookup trimiteName
      (dinsert (captchaTargetName (extractFormData form.inputs)) code
        (dinsert nrIdName (pyUpper vin) (extractFormData form.inputs)))
      = some []
  · rw [if_pos h, dlookup_dinsert, if_neg hn]
  · rw [if_neg h]

theorem build_lookup_target (form : FormEl) (vin code : Str) :
    dlookup (captchaTargetName (extractFormData form.inputs))
      (build_form_data_from_page form vin code).2 = some code := by
  have hne : trimiteName ≠ captchaTargetName (extractFormData form.inputs) := by
    rcases captchaTargetName_cases (extractFormData form.inputs) with h | h <;>
      rw [h] <;> decide
  rw [build_lookup_skip_trimite form vin code _ hne, dlookup_dinsert, if_pos rfl]

theorem build_lookup_other_captcha (form : FormEl) (vin code other : Str)
    (hmem : other = verifCodName ∨ other = antirobotName)
    (hne : other ≠ captchaTargetName (extractFormData form.inputs)) :
    dlookup other (build_form_data_from_page form vin code).2 =
      dlookup other (extractFormData form.inputs) := by
  have htr : trimiteName ≠ other := by
    rcases hmem with h | h <;> rw [h] <;> decide
  have hnr : nrIdName ≠ other := by
    rcases hmem with h | h <;> rw [h] <;> decide
  rw [build_lookup_skip_trimite form vin code _ htr, dlookup_dinsert,
      if_neg (fun h => hne h.symm), dlookup_dinsert, if_neg hnr]

/-- Concrete form for the C4 counterexample: a submit button field
`trimite` with empty value, plus an unrelated field. -/
def c4Form : FormEl :=
  ⟨none, [⟨some "trimite".toList, some []⟩, ⟨some "alt".toList, some "x".toList⟩]⟩

/-- C4 counterexample: `trimite` pre-exists with empty value, is neither
the VIN field nor the CAPTCHA target, yet its value changes from the empty
string to the default submit label. -/
theorem C4_counterexample_trimite :
    dmem trimiteName (extractFormData c4Form.inputs) = true
  ∧ trimiteName ≠ nrIdName
  ∧ trimiteName ≠ captchaTargetName (extractFormData c4Form.inputs)
  ∧ dlookup trimiteName (extractFormData c4Form.inputs) = some []
  ∧ dlookup trimiteName
      (build_form_data_from_page c4Form "v1".toList "1234".toList).2
      = some "Caută".toList := by
  decide

/-- C4 (amended): every pre-existing named field other than the VIN field,
the CAPTCHA target field, and a `trimite` field whose extracted value is
empty (which is filled with the default submit label) keeps its extracted
value. -/
theorem C4_frame_other_fields (form : FormEl) (vin code n : Str)
    (h1 : n ≠ nrIdName)
    (h2 : n ≠ captchaTargetName (extractFormData form.inputs))
    (h3 : ¬ (n = trimiteName ∧
             dlookup n (extractFormData form.inputs) = some [])) :
    dlookup n (build_form_data_from_page form vin code).2
      = dlookup n (extractFormData form.inputs) := by
  have base : dlookup n
      (dinsert (captchaTargetName (extractFormData form.inputs)) code
        (dinsert nrIdName (pyUpper vin) (extractFormData form.inputs)))
      = dlookup n (extractFormData form.inputs) := by
    rw [dlookup_dinsert, if_neg (fun h => h2 h.symm), dlookup_dinsert,
        if_neg (fun h => h1 h.symm)]
  by_cases hnt : n = trimiteName
  · subst hnt
    rw [build_form_data_eq]
    rw [if_neg ?h]
    · exact base
    case h =>
      rw [base]
      intro hcontra
      exact h3 ⟨rfl, hcontra⟩
  · rw [build_lookup_skip_trimite form vin code n (fun h => hnt h.symm)]
    exact base

/-- C4 witness: amended frame property at a concrete form and field. -/
theorem C4_frame_witness :
    dlookup "alt".toList
      (build_form_data_from_page c4Form "v1".toList "1234".toList).2
      = dlookup "alt".toList (extractFormData c4Form.inputs) :=
  C4_frame_other_fields c4Form "v1".toList "1234".toList "alt".toList
    (by decide) (by decide) (by decide)

/-- C6: the CAPTCHA code is routed to `verif_cod` when that field was
extracted, else to `antirobot` when that was extracted, else to a fresh
`verif_cod` entry; the chosen field holds the code in the resulting form
data, and — whenever the non-chosen CAPTCHA field name's extracted value is
not coincidentally the code itself — exactly one of the two CAPTCHA field
names holds the code. -/
theorem C6_captcha_routing (form : FormEl) (vin code : Str) :
    (dmem verifCodName (extractFormData form.inputs) = true →
       captchaTargetName (extractFormData form.inputs) = verifCodName)
  ∧ (dmem verifCodName (extractFormData form.inputs) = false →
     dmem antirobotName (extractFormData form.inputs) = true →
       captchaTargetName (extractFormData form.inputs) = antirobotName)
  ∧ (dmem verifCodName (extractFormData form.inputs) = false →
     dmem antirobotName (extractFormData form.inputs) = false →
       captchaTargetName (extractFormData form.inputs) = verifCodName)
  ∧ dlookup (captchaTargetName (extractFormData form.inputs))
      (build_form_data_from_page form vin code).2 = some code
  ∧ ((captchaTargetName (extractFormData form.inputs) ≠ verifCodName →
        dlookup verifCodName (extractFormData form.inputs) ≠ some code) →
     (captchaTargetName (extractFormData form.inputs) ≠ antirobotName →
        dlookup antirobotName (extractFormData form.inputs) ≠ some code) →
     ((dlookup verifCodName (build_form_data_from_page form vin code).2
         = some code ∧
       dlookup antirobotName (build_form_data_from_page form vin code).2
         ≠ some code) ∨
      (dlookup verifCodName (build_form_data_from_page form vin code).2
         ≠ some code ∧
       dlookup antirobotName (build_form_data_from_page form vin code).2
         = some code))) := by
  refine ⟨?_, ?_, ?_, build_lookup_target form vin code, ?_⟩
  · intro h
    unfold captchaTargetName
    rw [if_pos h]
  · intro h1 h2
    unfold captchaTargetName
    rw [if_neg (by rw [h1]; exact Bool.false_ne_true), if_pos h2]
  · intro h1 h2
    unfold captchaTargetName
    rw [if_neg (by rw [h1]; exact Bool.false_ne_true),
        if_neg (by rw [h2]; exact Bool.false_ne_true)]
  · intro hv ha
    rcases captchaTargetName_cases (extractFormData form.inputs) with ht | ht
    · left
      constructor
      · rw [← ht]
        exact build_lookup_target form vin code
      · have hne : antirobotName ≠ captchaTargetName (extractFormData form.inputs) := by
          rw [ht]
          decide
        rw [build_lookup_other_captcha form vin code antirobotName (Or.inr rfl) hne]
        exact ha (fun h => hne h.symm)
    · right
      constructor
      · have hne : verifCodName ≠ captchaTargetName (extractFormData form.inputs) := by
          rw [ht]
          decide
        rw [build_lookup_other_captcha form vin code verifCodName (Or.inl rfl) hne]
        exact hv (fun h => hne h.symm)
      · rw [← ht]
        exact build_lookup_target form vin code

/-- C6 witness: routing and exactly-one at a concrete form that has only
the deprecated `antirobot` field. -/
theorem C6_captcha_routing_witness :
    ((dlookup verifCodName
        (build_form_data_from_page ⟨none, [⟨some "antirobot".toList, some "old".toList⟩]⟩
          "v".toList "1234".toList).2 = some "1234".toList ∧
      dlookup antirobotName
        (build_form_data_from_page ⟨none, [⟨some "antirobot".toList, some "old".toList⟩]⟩
          "v".toList "1234".toList).2 ≠ some "1234".toList) ∨
     (dlookup verifCodName
        (build_form_data_from_page ⟨none, [⟨some "antirobot".toList, some "old".toList⟩]⟩
          "v".toList "1234".toList).2 ≠ some "1234".toList ∧
      dlookup antirobotName
        (build_form_data_from_page ⟨none, [⟨some "antirobot".toList, some "old".toList⟩]⟩
          "v".toList "1234".toList).2 = some "1234".toList)) :=
  (C6_captcha_routing ⟨none, [⟨some "antirobot".toList, some "old".toList⟩]⟩
      "v".toList "1234".toList).2.2.2.2
    (fun _ => by decide) (fun _ => by decide)

/-- C7: content text containing the no-record marker (checked on the
lower-cased text, hence case-insensitively) parses to status "Not Found"
with expiration "Unknown"; without the marker the status is "Valid". -/
theorem C7_no_record_marker (text : Str) (legacyNode : Option Str) :
    (occursIn noRecordMarker (pyLower text) = true →
       parse_results text legacyNode = ("Not Found".toList, "Unknown".toList))
  ∧ (occursIn noRecordMarker (pyLower text) = false →
       (parse_results text legacyNode).1 = "Valid".toList) := by
  constructor
  · intro h
    simp only [parse_results]
    rw [if_pos h]
  · intro h
    simp only [parse_results]
    rw [if_neg (by rw [h]; exact Bool.false_ne_true)]

/-- C7 witness: both conjuncts at concrete result texts. -/
theorem C7_no_record_marker_witness :
    parse_results "Nu a fost găsită nicio înregistrare!".toList none
      = ("Not Found".toList, "Unknown".toList)
  ∧ (parse_results "Rezultat ok".toList none).1 = "Valid".toList :=
  ⟨(C7_no_record_marker "Nu a fost găsită nicio înregistrare!".toList none).1
     (by decide),
   (C7_no_record_marker "Rezultat ok".toList none).2 (by decide)⟩

/-- C8: on marker-bearing content text (without the no-record marker), the
token following the validity marker, stripped and split on dashes into
day, month abbreviation, year, yields year dash mapped-month (unknown
abbreviations defaulting to 01) dash zero-padded day; the concrete text
with token 5-mar-2026 yields 2026-03-05; and a fragment on which the date
parse fails leaves the expiration "Unknown" instead of aborting. -/
theorem C8_new_format_date (text : Str) (legacyNode : Option Str) :
    (∀ fragment tok day month year : Str,
       occursIn noRecordMarker (pyLower text) = false →
       afterFirst validUntilMarker (pyLower text) = some fragment →
       firstWsToken fragment = some tok →
       splitOnChar '-' (stripDots (pyStrip tok)) = [day, month, year] →
       (parse_results text legacyNode).2
         = year ++ "-".toList ++ (dlookup month MONTH_MAP).getD "01".toList
           ++ "-".toList ++ zfill 2 day)
  ∧ parse_results "ITP valabilă până la 5-mar-2026.".toList none
      = ("Valid".toList, "2026-03-05".toList)
  ∧ (∀ fragment : Str,
       occursIn noRecordMarker (pyLower text) = false →
       afterFirst validUntilMarker (pyLower text) = some fragment →
       parseNewDate fragment = none →
       (parse_results text legacyNode).2 = "Unknown".toList) := by
  refine ⟨?_, by decide, ?_⟩
  · intro fragment tok day month year hnr hfrag htok hsplit
    simp only [parse_results, parseNewDate]
    rw [if_neg (by rw [hnr]; exact Bool.false_ne_true)]
    simp only [hfrag, htok, hsplit, Option.getD_some]
  · intro fragment hnr hfrag hpn
    simp only [parse_results]
    rw [if_neg (by rw [hnr]; exact Bool.false_ne_true)]
    simp only [hfrag, hpn, Option.getD_none]

/-- C8 witness: general conjunct at the concrete fragment, and failure
conjunct at a dateless fragment. -/
theorem C8_new_format_date_witness :
    (parse_results "ITP valabilă până la 15-oct-2027".toList none).2
      = "2027".toList ++ "-".toList
        ++ (dlookup "oct".toList MONTH_MAP).getD "01".toList
        ++ "-".toList ++ zfill 2 "15".toList
  ∧ (parse_results "ITP valabilă până la   ".toList none).2
      = "Unknown".toList :=
  ⟨(C8_new_format_date "ITP valabilă până la 15-oct-2027".toList none).1
     " 15-oct-2027".toList "15-oct-2027".toList "15".toList "oct".toList
     "2027".toList (by decide) (by decide) (by decide) (by decide),
   (C8_new_format_date "ITP valabilă până la   ".toList none).2.2
     "   ".toList (by decide) (by decide) (by decide)⟩

theorem runAttempt_cases (vin : Str) (env : AttemptEnv) :
    (∃ e, runAttempt vin env = (.error e, [.attemptStarted]))
  ∨ (∃ form clean,
       env.pageForm = some form ∧
       fullmatchDigits 4 clean = true ∧
       runAttempt vin env =
         ((if env.postStatus ≠ 200 then .error (.postHTTP env.postStatus)
           else if occursIn rejectionPhrase (pyLower env.postBody) then
             .error .captchaRejected
           else .ok ⟨env.postBody, env.resultDivText, env.legacyNodeText⟩),
          [Event.attemptStarted,
           Event.submitted (build_form_data_from_page form vin clean).1
             (build_form_data_from_page form vin clean).2 clean])) := by
  obtain ⟨ps, formO, srcO, capSt, ocrR, postSt, body, divT, legT⟩ := env
  unfold runAttempt
  simp only []
  by_cases h1 : ps ≠ 200
  · rw [if_pos h1]
    exact Or.inl ⟨_, rfl⟩
  · rw [if_neg h1]
    cases srcO with
    | none => exact Or.inl ⟨_, rfl⟩
    | some src =>
        simp only []
        by_cases h2 : src = []
        · rw [if_pos h2]
          exact Or.inl ⟨_, rfl⟩
        · rw [if_neg h2]
          by_cases h3 : capSt ≠ 200
          · rw [if_pos h3]
            exact Or.inl ⟨_, rfl⟩
          · rw [if_neg h3]
            cases hocr : solve_captcha_with_local_api ocrR with
            | error e => exact Or.inl ⟨_, rfl⟩
            | ok captcha_text =>
                simp only []
                by_cases h4 : captcha_text = []
                · rw [if_pos h4]
                  exact Or.inl ⟨_, rfl⟩
                · rw [if_neg h4]
                  by_cases h5 : ¬ fullmatchDigits 4 (captcha_text.filter Char.isDigit) = true
                  · rw [if_pos h5]
                    exact Or.inl ⟨_, rfl⟩
                  · rw [if_neg h5]
                    cases formO with
                    | none => exact Or.inl ⟨_, rfl⟩
                    | some form =>
                        simp only []
                        refine Or.inr ⟨form, captcha_text.filter Char.isDigit,
                          rfl, not_not.mp h5, ?_⟩
                        by_cases h6 : postSt ≠ 200
                        · rw [if_pos h6, if_pos h6]
                        · rw [if_neg h6, if_neg h6]
                          by_cases h7 : occursIn rejectionPhrase (pyLower body)
                          · rw [if_pos h7, if_pos h7]
                          · rw [if_neg h7, if_neg h7]

theorem countStarted_runAttempt (vin : Str) (env : AttemptEnv) :
    countStarted (runAttempt vin env).2 = 1 := by
  rcases runAttempt_cases vin env with ⟨e, he⟩ | ⟨form, clean, _, _, he⟩ <;>
    rw [he] <;> rfl

theorem submitted_shape (vin : Str) (env : AttemptEnv)
    (r : Except AttemptFailure ResultPage) (t : List Event)
    (u : Str) (f : Dict) (c : Str)
    (hr : runAttempt vin env = (r, t))
    (h : Event.submitted u f c ∈ t) :
    fullmatchDigits 4 c = true ∧
    (dlookup verifCodName f = some c ∨ dlookup antirobotName f = some c) := by
  rcases runAttempt_cases vin env with ⟨e, he⟩ | ⟨form, clean, _, hfm, he⟩
  · rw [hr, Prod.mk.injEq] at he
    rw [he.2] at h
    simp at h
  · rw [hr, Prod.mk.injEq] at he
    rw [he.2] at h
    simp only [List.mem_cons, List.not_mem_nil, or_false] at h
    rcases h with h | h
    · exact Event.noConfusion h
    · injection h with h1 h2 h3
      subst h1
      subst h2
      subst h3
      refine ⟨hfm, ?_⟩
      rcases captchaTargetName_cases (extractFormData form.inputs) with ht | ht
      · left
        rw [← ht]
        exact build_lookup_target form vin c
      · right
        rw [← ht]
        exact build_lookup_target form vin c

/-- C1: every form submission POST performed by a fetch run carries a
CAPTCHA code that is a non-empty string of exactly 4 decimal digits (so
re-stripping non-digits leaves it unchanged), and the submitted form data
holds that code in one of the two CAPTCHA fields. -/
theorem C1_submitted_captcha_validated (vin : Str) (e1 e2 e3 : AttemptEnv)
    (u : Str) (f : Dict) (c : Str)
    (h : Event.submitted u f c ∈ (fetch_itp vin e1 e2 e3).2) :
    c ≠ [] ∧ c.length = 4 ∧ c.all Char.isDigit = true ∧
    c.filter Char.isDigit = c ∧
    (dlookup verifCodName f = some c ∨ dlookup antirobotName f = some c) := by
  have key : fullmatchDigits 4 c = true ∧
      (dlookup verifCodName f = some c ∨ dlookup antirobotName f = some c) := by
    rcases hr1 : runAttempt vin e1 with ⟨r1, t1⟩
    cases r1 with
    | ok rp =>
        have ht : (fetch_itp vin e1 e2 e3).2 = t1 := by
          simp [fetch_itp, hr1]
        rw [ht] at h
        exact submitted_shape vin e1 _ _ u f c hr1 h
    | error c1 =>
        rcases hr2 : runAttempt vin e2 with ⟨r2, t2⟩
        cases r2 with
        | ok rp =>
            have ht : (fetch_itp vin e1 e2 e3).2 = t1 ++ t2 := by
              simp [fetch_itp, hr1, hr2]
            rw [ht] at h
            rcases List.mem_append.mp h with h | h
            · exact submitted_shape vin e1 _ _ u f c hr1 h
            · exact submitted_shape vin e2 _ _ u f c hr2 h
        | error c2 =>
            rcases hr3 : runAttempt vin e3 with ⟨r3, t3⟩
            have ht : (fetch_itp vin e1 e2 e3).2 = t1 ++ t2 ++ t3 := by
              cases r3 <;> simp [fetch_itp, hr1, hr2, hr3]
            rw [ht] at h
            rcases List.mem_append.mp h with h | h
            · rcases List.mem_append.mp h with h | h
              · exact submitted_shape vin e1 _ _ u f c hr1 h
              · exact submitted_shape vin e2 _ _ u f c hr2 h
            · exact submitted_shape vin e3 _ _ u f c hr3 h
  obtain ⟨hfm, hfield⟩ := key
  rw [fullmatchDigits, Bool.and_eq_true] at hfm
  obtain ⟨hlen, hall⟩ := hfm
  have hlen4 : c.length = 4 := of_decide_eq_true hlen
  refine ⟨?_, hlen4, hall, ?_, hfield⟩
  · intro hemp
    rw [hemp] at hlen4
    simp at hlen4
  · exact List.filter_eq_self.mpr (List.all_eq_true.mp hall)

/-- Form and environments for the orchestrator witnesses. -/
def okFormW : FormEl := ⟨none, [⟨some "verif_cod".toList, some []⟩]⟩

/-- Environment whose attempt reaches submission and succeeds. -/
def okEnvW : AttemptEnv :=
  ⟨200, some okFormW, some "c.png".toList, 200,
   .reply ⟨200, [], some "1234".toList⟩, 200, "Rezultat".toList, none, none⟩

/-- Environment whose attempt reaches submission and gets the server-side
CAPTCHA rejection phrase in a 200 response. -/
def rejEnvW : AttemptEnv :=
  ⟨200, some okFormW, some "c.png".toList, 200,
   .reply ⟨200, [], some "1234".toList⟩, 200,
   "Codul de verificare a fost copiat incorect!".toList, none, none⟩

/-- Environment whose attempt fails at the initial page load. -/
def badEnvW : AttemptEnv :=
  ⟨500, none, none, 0, .timeout, 0, [], none, none⟩

/-- C1 witness: a concrete run whose trace contains a submission. -/
theorem C1_submitted_captcha_validated_witness :
    "1234".toList ≠ [] ∧ ("1234".toList).length = 4 ∧
    ("1234".toList).all Char.isDigit = true ∧
    ("1234".toList).filter Char.isDigit = "1234".toList ∧
    (dlookup verifCodName
        (build_form_data_from_page okFormW "v".toList "1234".toList).2
        = some "1234".toList ∨
     dlookup antirobotName
        (build_form_data_from_page okFormW "v".toList "1234".toList).2
        = some "1234".toList) :=
  C1_submitted_captcha_validated "v".toList okEnvW okEnvW okEnvW
    (build_form_data_from_page okFormW "v".toList "1234".toList).1
    (build_form_data_from_page okFormW "v".toList "1234".toList).2
    "1234".toList (by decide)

/-- C2: a fetch run starts at most 3 attempts; an attempt whose submission
draws a 200 response containing the server rejection phrase fails with the
rejection cause (so it retries rather than succeeding); and when all three
attempts fail, the terminal failure wraps the cause of the third (last)
attempt. -/
theorem C2_attempts_and_last_cause :
    (∀ (vin : Str) (e1 e2 e3 : AttemptEnv),
       countStarted (fetch_itp vin e1 e2 e3).2 ≤ 3)
  ∧ (∀ (vin : Str) (env : AttemptEnv) (u : Str) (f : Dict) (c : Str),
       Event.submitted u f c ∈ (runAttempt vin env).2 →
       env.postStatus = 200 →
       occursIn rejectionPhrase (pyLower env.postBody) = true →
       (runAttempt vin env).1 = .error .captchaRejected)
  ∧ (∀ (vin : Str) (e1 e2 e3 : AttemptEnv) (c1 c2 c3 : AttemptFailure),
       (runAttempt vin e1).1 = .error c1 →
       (runAttempt vin e2).1 = .error c2 →
       (runAttempt vin e3).1 = .error c3 →
       (fetch_itp vin e1 e2 e3).1
         = .error (.itpCheckFailed (.failedAfter3 c3))) := by
  refine ⟨?_, ?_, ?_⟩
  · intro vin e1 e2 e3
    have k1 := countStarted_runAttempt vin e1
    have k2 := countStarted_runAttempt vin e2
    have k3 := countStarted_runAttempt vin e3
    rcases hr1 : runAttempt vin e1 with ⟨r1, t1⟩
    rw [hr1] at k1
    rcases hr2 : runAttempt vin e2 with ⟨r2, t2⟩
    rw [hr2] at k2
    rcases hr3 : runAttempt vin e3 with ⟨r3, t3⟩
    rw [hr3] at k3
    simp only at k1 k2 k3
    cases r1 with
    | ok rp =>
        have ht : (fetch_itp vin e1 e2 e3).2 = t1 := by
          simp [fetch_itp, hr1]
        rw [ht]
        omega
    | error c1 =>
        cases r2 with
        | ok rp =>
            have ht : (fetch_itp vin e1 e2 e3).2 = t1 ++ t2 := by
              simp [fetch_itp, hr1, hr2]
            rw [ht]
            simp only [countStarted, List.countP_append] at *
            omega
        | error c2 =>
            have ht : (fetch_itp vin e1 e2 e3).2 = t1 ++ t2 ++ t3 := by
              cases r3 <;> simp [fetch_itp, hr1, hr2, hr3]
            rw [ht]
            simp only [countStarted, List.countP_append] at *
            omega
  · intro vin env u f c hsub hst hph
    rcases runAttempt_cases vin env with ⟨e, he⟩ | ⟨form, clean, _, _, he⟩
    · rw [he] at hsub
      simp at hsub
    · rw [he]
      simp only
      rw [hst]
      rw [if_neg (by simp), if_pos hph]
  · intro vin e1 e2 e3 c1 c2 c3 h1 h2 h3
    rcases hr1 : runAttempt vin e1 with ⟨r1, t1⟩
    rw [hr1] at h1
    simp only at h1
    subst h1
    rcases hr2 : runAttempt vin e2 with ⟨r2, t2⟩
    rw [hr2] at h2
    simp only at h2
    subst h2
    rcases hr3 : runAttempt vin e3 with ⟨r3, t3⟩
    rw [hr3] at h3
    simp only at h3
    subst h3
    simp [fetch_itp, hr1, hr2, hr3]

/-- C2 witness: the rejection-phrase conjunct at a concrete environment
reaching submission, and the last-cause conjunct at three failing
attempts. -/
theorem C2_attempts_and_last_cause_witness :
    (runAttempt "v".toList rejEnvW).1 = .error .captchaRejected
  ∧ (fetch_itp "v".toList badEnvW badEnvW badEnvW).1
      = .error (.itpCheckFailed (.failedAfter3 (.initialHTTP 500))) :=
  ⟨C2_attempts_and_last_cause.2.1 "v".toList rejEnvW
     (build_form_data_from_page okFormW "v".toList "1234".toList).1
     (build_form_data_from_page okFormW "v".toList "1234".toList).2
     "1234".toList (by decide) rfl (by decide),
   C2_attempts_and_last_cause.2.2 "v".toList badEnvW badEnvW badEnvW
     (.initialHTTP 500) (.initialHTTP 500) (.initialHTTP 500)
     rfl rfl rfl⟩
